import Mathlib

/-!
Shallow embedding of the chatbot-with-SQL-agent pipeline (`src/app.py`) and
proofs about its specified behaviour.

The program is a Python script with five pipeline functions
(`get_database_schema`, `generate_sql_langchain`, `fetch_data`,
`rephrase_answer_deepseek_api`, and the `__main__` turn loop) plus a
scheduled-alerting subsystem (`check_failure_rates`, `detect_anomalies`,
`send_daily_financial_reports`).  External collaborators (the sqlite engine,
the Ollama model behind langchain, the DeepSeek HTTP endpoint) are modelled as
oracles passed in as parameters; everything the script itself computes is
translated directly from the source.
-/

namespace App

/-! ### Python string primitives used by the source

`str.strip()` (whitespace trimming), `repr` of ints / floats / strings,
`str(tuple)` and `"\n".join`.  All rendering is done over `List Char` so that
line/ordering facts are plain list lemmas; `String.mk` packs the result.
-/

/-- ASCII whitespace recognised by Python `str.strip()`. -/
def pyIsSpace (c : Char) : Bool :=
  c = ' ' || c = '\t' || c = '\n' || c = '\r' || c = '\x0b' || c = '\x0c'

/-- Python `str.strip()` on a character list: drop whitespace from both ends. -/
def stripList (l : List Char) : List Char :=
  (((l.dropWhile pyIsSpace).reverse).dropWhile pyIsSpace).reverse

/-- Python `str.strip()`. -/
def pyStrip (s : String) : String :=
  ⟨stripList s.data⟩

theorem dropWhile_dropWhile (p : Char → Bool) (l : List Char) :
    (l.dropWhile p).dropWhile p = l.dropWhile p := by
  induction l with
  | nil => rfl
  | cons c cs ih =>
    by_cases h : p c
    · simp [List.dropWhile_cons, h, ih]
    · simp [List.dropWhile_cons, h]

theorem dropWhile_head_false (p : Char → Bool) :
    ∀ (l : List Char) c cs, l.dropWhile p = c :: cs → p c = false := by
  intro l
  induction l with
  | nil => intro c cs h; simp [List.dropWhile] at h
  | cons a as ih =>
    intro c cs h
    by_cases hp : p a
    · rw [List.dropWhile_cons, if_pos hp] at h
      exact ih c cs h
    · rw [List.dropWhile_cons, if_neg hp] at h
      injection h with h1 _
      subst h1
      simpa using hp

theorem dropWhile_suffix (p : Char → Bool) (l : List Char) :
    ∃ t, l = t ++ l.dropWhile p := by
  induction l with
  | nil => exact ⟨[], rfl⟩
  | cons a as ih =>
    by_cases hp : p a
    · rcases ih with ⟨t, ht⟩
      refine ⟨a :: t, ?_⟩
      rw [List.dropWhile_cons, if_pos hp, List.cons_append]
      exact congrArg (a :: ·) ht
    · exact ⟨[], by rw [List.dropWhile_cons, if_neg hp]; rfl⟩

theorem stripList_dropWhile (m : List Char) :
    (((m.dropWhile pyIsSpace).reverse.dropWhile pyIsSpace).reverse).dropWhile pyIsSpace
      = ((m.dropWhile pyIsSpace).reverse.dropWhile pyIsSpace).reverse := by
  cases hBr : ((m.dropWhile pyIsSpace).reverse.dropWhile pyIsSpace).reverse with
  | nil => rfl
  | cons c cs =>
    have hpc : pyIsSpace c = false := by
      obtain ⟨t, ht⟩ := dropWhile_suffix pyIsSpace (m.dropWhile pyIsSpace).reverse
      have hA : m.dropWhile pyIsSpace
          = ((m.dropWhile pyIsSpace).reverse.dropWhile pyIsSpace).reverse ++ t.reverse := by
        have h2 := congrArg List.reverse ht
        rw [List.reverse_reverse, List.reverse_append] at h2
        exact h2
      rw [hBr] at hA
      exact dropWhile_head_false pyIsSpace m c (cs ++ t.reverse) (by rw [hA]; rfl)
    rw [List.dropWhile_cons, if_neg (by simp [hpc])]

theorem stripList_idem (l : List Char) : stripList (stripList l) = stripList l := by
  unfold stripList
  rw [stripList_dropWhile l, List.reverse_reverse, dropWhile_dropWhile]

theorem pyStrip_idem (s : String) : pyStrip (pyStrip s) = pyStrip s := by
  unfold pyStrip
  simp [stripList_idem]

/-- Decimal digit character, as produced by Python integer rendering. -/
def digitChar (d : Nat) : Char :=
  if d = 0 then '0' else if d = 1 then '1' else if d = 2 then '2'
  else if d = 3 then '3' else if d = 4 then '4' else if d = 5 then '5'
  else if d = 6 then '6' else if d = 7 then '7' else if d = 8 then '8' else '9'

theorem digitChar_ne_nl (d : Nat) : digitChar d ≠ '\n' := by
  unfold digitChar
  repeat' split
  all_goals decide

/-- Decimal digits of a natural number, most significant first, prepended to
`acc` (models Python's rendering of a nonnegative integer). -/
def natDigits (n : Nat) (acc : List Char) : List Char :=
  if h : n < 10 then digitChar n :: acc
  else natDigits (n / 10) (digitChar (n % 10) :: acc)
termination_by n
decreasing_by
  exact Nat.div_lt_self (Nat.lt_of_lt_of_le (by decide) (Nat.le_of_not_lt h)) (by decide)

theorem natDigits_mem (n : Nat) :
    ∀ acc c, c ∈ natDigits n acc → (∃ d, c = digitChar d) ∨ c ∈ acc := by
  induction n using Nat.strong_induction_on with
  | _ n ih =>
    intro acc c hc
    rw [natDigits] at hc
    split at hc
    · rcases List.mem_cons.mp hc with h | h
      · exact Or.inl ⟨n, h⟩
      · exact Or.inr h
    · rename_i h
      have hlt : n / 10 < n :=
        Nat.div_lt_self (Nat.lt_of_lt_of_le (by decide) (Nat.le_of_not_lt h)) (by decide)
      rcases ih (n / 10) hlt _ c hc with h' | h'
      · exact Or.inl h'
      · rcases List.mem_cons.mp h' with h'' | h''
        · exact Or.inl ⟨n % 10, h''⟩
        · exact Or.inr h''

/-- Python `repr` of an `int`, as a character list. -/
def pyIntReprL : Int → List Char
  | Int.ofNat n => natDigits n []
  | Int.negSucc n => '-' :: natDigits (n + 1) []

theorem pyIntReprL_ne_nl (n : Int) : '\n' ∉ pyIntReprL n := by
  intro hmem
  cases n with
  | ofNat m =>
    rcases natDigits_mem m [] '\n' hmem with ⟨d, hd⟩ | h
    · exact digitChar_ne_nl d hd.symm
    · simp at h
  | negSucc m =>
    rcases List.mem_cons.mp hmem with h | h
    · exact absurd h (by decide)
    · rcases natDigits_mem (m + 1) [] '\n' h with ⟨d, hd⟩ | h'
      · exact digitChar_ne_nl d hd.symm
      · simp at h'

/-- Hexadecimal digit character (used by the string-escape rendering). -/
def hexChar (d : Nat) : Char :=
  if d < 10 then digitChar d
  else if d = 10 then 'a' else if d = 11 then 'b' else if d = 12 then 'c'
  else if d = 13 then 'd' else if d = 14 then 'e' else 'f'

theorem hexChar_ne_nl (d : Nat) : hexChar d ≠ '\n' := by
  unfold hexChar
  repeat' split
  · exact digitChar_ne_nl d
  all_goals decide

/-- One character of Python `repr` of a string, escaped relative to the chosen
quote character `q`: backslash, the quote, newline, carriage return and tab get
two-character escapes, other control characters get a hex escape, everything
else passes through. -/
def escapeChar (q c : Char) : List Char :=
  if c = '\\' then ['\\', '\\']
  else if c = q then ['\\', q]
  else if c = '\n' then ['\\', 'n']
  else if c = '\r' then ['\\', 'r']
  else if c = '\t' then ['\\', 't']
  else if c.toNat < 32 || c.toNat = 127 then
    ['\\', 'x', hexChar (c.toNat / 16), hexChar (c.toNat % 16)]
  else [c]

theorem escapeChar_ne_nl (q c : Char) (hq : q ≠ '\n') : '\n' ∉ escapeChar q c := by
  unfold escapeChar
  split_ifs with h1 h2 h3 h4 h5 h6
  · decide
  · intro hm
    rcases List.mem_cons.mp hm with h | h
    · exact absurd h (by decide)
    · rcases List.mem_cons.mp h with h' | h'
      · exact hq h'.symm
      · simp at h'
  · decide
  · decide
  · decide
  · intro hm
    rcases List.mem_cons.mp hm with h | h
    · exact absurd h (by decide)
    rcases List.mem_cons.mp h with h | h
    · exact absurd h (by decide)
    rcases List.mem_cons.mp h with h | h
    · exact hexChar_ne_nl _ h.symm
    rcases List.mem_cons.mp h with h | h
    · exact hexChar_ne_nl _ h.symm
    · simp at h
  · intro hm
    rcases List.mem_cons.mp hm with h | h
    · exact h3 h.symm
    · simp at h

/-- Python `repr` of a string, as a character list: chooses double quotes when
the string holds a single quote but no double quote (CPython's rule), otherwise
single quotes, and escapes the content character-wise. -/
def pyStrReprL (s : String) : List Char :=
  let q : Char := if s.data.contains '\x27' && !(s.data.contains '"') then '"' else '\x27'
  q :: ((s.data.map (escapeChar q)).flatten ++ [q])

theorem pyStrReprL_ne_nl (s : String) : '\n' ∉ pyStrReprL s := by
  unfold pyStrReprL
  intro hm
  have hq : (if s.data.contains '\x27' && !(s.data.contains '"') then '"' else '\x27')
      ≠ '\n' := by split <;> decide
  rcases List.mem_cons.mp hm with h | h
  · exact hq h.symm
  rcases List.mem_append.mp h with h | h
  · rcases List.mem_flatten.mp h with ⟨piece, hp, hc⟩
    rcases List.mem_map.mp hp with ⟨c, _, rfl⟩
    exact escapeChar_ne_nl _ c hq hc
  · rcases List.mem_cons.mp h with h' | h'
    · exact hq h'.symm
    · simp at h'

/-- A REAL value as materialised by the sqlite driver, represented by the
decimal form Python's `repr` prints for it (optional sign, integer digits,
optional fractional digits, optional decimal exponent).  The claims under
verification depend only on the rendered text, never on IEEE arithmetic. -/
structure FloatLit where
  neg : Bool
  intDigits : List Nat
  fracDigits : List Nat
  exp : Option Int
deriving DecidableEq

/-- Python `repr` of a float, as a character list. -/
def pyFloatReprL (f : FloatLit) : List Char :=
  (if f.neg then ['-'] else [])
  ++ f.intDigits.map digitChar
  ++ (if f.fracDigits = [] then [] else '.' :: f.fracDigits.map digitChar)
  ++ (match f.exp with
      | none => []
      | some e =>
        'e' :: (if e < 0 then '-' else '+') :: natDigits e.natAbs [])

theorem pyFloatReprL_ne_nl (f : FloatLit) : '\n' ∉ pyFloatReprL f := by
  unfold pyFloatReprL
  intro hm
  rcases List.mem_append.mp hm with h | h
  · rcases List.mem_append.mp h with h | h
    · rcases List.mem_append.mp h with h | h
      · split at h <;> simp_all
      · rcases List.mem_map.mp h with ⟨d, _, hd⟩
        exact digitChar_ne_nl d hd
    · split at h
      · simp at h
      · rcases List.mem_cons.mp h with h' | h'
        · exact absurd h' (by decide)
        · rcases List.mem_map.mp h' with ⟨d, _, hd⟩
          exact digitChar_ne_nl d hd
  · rcases hexp : f.exp with _ | e
    · rw [hexp] at h; simp at h
    · rw [hexp] at h
      rcases List.mem_cons.mp h with h' | h'
      · exact absurd h' (by decide)
      rcases List.mem_cons.mp h' with h'' | h''
      · split at h'' <;> exact absurd h'' (by decide)
      · rcases natDigits_mem e.natAbs [] '\n' h'' with ⟨d, hd⟩ | hfalse
        · exact digitChar_ne_nl d hd.symm
        · simp at hfalse

/-- A scalar value in a fetched row, as produced by the sqlite driver:
NULL becomes Python `None`, INTEGER an `int`, REAL a `float`, TEXT a `str`. -/
inductive Value where
  | int (n : Int)
  | real (f : FloatLit)
  | text (s : String)
  | null
deriving DecidableEq

/-- A fetched row: the tuple of column values, in column order. -/
abbrev Row := List Value

/-- Python `repr` of a row element. -/
def pyReprVal : Value → List Char
  | .int n => pyIntReprL n
  | .real f => pyFloatReprL f
  | .text s => pyStrReprL s
  | .null => ['N', 'o', 'n', 'e']

theorem pyReprVal_ne_nl (v : Value) : '\n' ∉ pyReprVal v := by
  cases v with
  | int n => exact pyIntReprL_ne_nl n
  | real f => exact pyFloatReprL_ne_nl f
  | text s => exact pyStrReprL_ne_nl s
  | null => decide

/-- Comma-space separated join of rendered elements (Python tuple printing). -/
def commaJoin : List (List Char) → List Char
  | [] => []
  | [e] => e
  | e :: es => e ++ ',' :: ' ' :: commaJoin es

theorem commaJoin_mem :
    ∀ (es : List (List Char)) c, c ∈ commaJoin es →
      (∃ e ∈ es, c ∈ e) ∨ c = ',' ∨ c = ' '
  | [], c, h => by simp [commaJoin] at h
  | [e], c, h => Or.inl ⟨e, by simp, h⟩
  | e :: e2 :: es, c, h => by
    rcases List.mem_append.mp h with h' | h'
    · exact Or.inl ⟨e, by simp, h'⟩
    rcases List.mem_cons.mp h' with h'' | h''
    · exact Or.inr (Or.inl h'')
    rcases List.mem_cons.mp h'' with h3 | h3
    · exact Or.inr (Or.inr h3)
    · rcases commaJoin_mem (e2 :: es) c h3 with ⟨e', he', hc⟩ | h4
      · exact Or.inl ⟨e', List.mem_cons_of_mem e he', hc⟩
      · exact Or.inr h4

/-- Python `str` of a tuple given the rendered elements: parenthesised,
comma-space separated, with the trailing comma of a 1-tuple. -/
def pyTupleReprL : List (List Char) → List Char
  | [] => ['(', ')']
  | [e] => '(' :: (e ++ [',', ')'])
  | es => '(' :: (commaJoin es ++ [')'])

/-- Python `str(row)` for a fetched row (tuple of scalars). -/
def pyReprRow (r : Row) : List Char := pyTupleReprL (r.map pyReprVal)

theorem pyReprRow_ne_nl (r : Row) : '\n' ∉ pyReprRow r := by
  unfold pyReprRow pyTupleReprL
  intro hm
  split at hm
  · simp at hm
  · rename_i e heq
    rcases List.mem_cons.mp hm with h | h
    · exact absurd h (by decide)
    rcases List.mem_append.mp h with h | h
    · have he : e ∈ r.map pyReprVal := by rw [heq]; simp
      rcases List.mem_map.mp he with ⟨v, _, rfl⟩
      exact pyReprVal_ne_nl v h
    · rcases List.mem_cons.mp h with h' | h'
      · exact absurd h' (by decide)
      · simp at h'
  · rcases List.mem_cons.mp hm with h | h
    · exact absurd h (by decide)
    rcases List.mem_append.mp h with h | h
    · rcases commaJoin_mem _ '\n' h with ⟨e, he, hc⟩ | h'
      · rcases List.mem_map.mp he with ⟨v, _, rfl⟩
        exact pyReprVal_ne_nl v hc
      · rcases h' with h' | h' <;> exact absurd h' (by decide)
    · rcases List.mem_cons.mp h with h' | h'
      · exact absurd h' (by decide)
      · simp at h'

/-- Python `"\n".join` over already-rendered lines. -/
def joinNl : List (List Char) → List Char
  | [] => []
  | [e] => e
  | e :: es => e ++ '\n' :: joinNl es

/-- Split a character list at newline characters (the lines of the text). -/
def splitNl : List Char → List (List Char)
  | [] => [[]]
  | c :: cs =>
    if c = '\n' then [] :: splitNl cs
    else
      match splitNl cs with
      | [] => [[c]]
      | l :: ls => (c :: l) :: ls

theorem splitNl_no_nl : ∀ (p : List Char), '\n' ∉ p → splitNl p = [p]
  | [], _ => rfl
  | c :: cs, h => by
    have hc : ¬ (c = '\n') := fun hc => h (hc ▸ List.mem_cons_self c cs)
    have hcs : '\n' ∉ cs := fun hm => h (List.mem_cons_of_mem c hm)
    unfold splitNl
    rw [if_neg hc, splitNl_no_nl cs hcs]

theorem splitNl_append_nl : ∀ (p q : List Char), '\n' ∉ p →
    splitNl (p ++ '\n' :: q) = p :: splitNl q
  | [], q, _ => by simp [splitNl]
  | c :: cs, q, h => by
    have hc : ¬ (c = '\n') := fun hc => h (hc ▸ List.mem_cons_self c cs)
    have hcs : '\n' ∉ cs := fun hm => h (List.mem_cons_of_mem c hm)
    have ih := splitNl_append_nl cs q hcs
    show (if c = '\n' then [] :: splitNl (cs ++ '\n' :: q)
        else match splitNl (cs ++ '\n' :: q) with
          | [] => [[c]]
          | l :: ls => (c :: l) :: ls) = (c :: cs) :: splitNl q
    rw [if_neg hc, ih]

theorem splitNl_joinNl : ∀ (pieces : List (List Char)), pieces ≠ [] →
    (∀ p ∈ pieces, '\n' ∉ p) → splitNl (joinNl pieces) = pieces
  | [], h, _ => absurd rfl h
  | [p], _, hnl => by
    unfold joinNl
    exact splitNl_no_nl p (hnl p (by simp))
  | p :: p2 :: ps, _, hnl => by
    have h1 : joinNl (p :: p2 :: ps) = p ++ '\n' :: joinNl (p2 :: ps) := rfl
    rw [h1, splitNl_append_nl p _ (hnl p (by simp)),
      splitNl_joinNl (p2 :: ps) (by simp)
        (fun x hx => hnl x (List.mem_cons_of_mem p hx))]

/-! ### Schema Introspector (`get_database_schema`)

The sqlite catalog is modelled as the answers the two catalog queries give:
the table list from `sqlite_master` and, per table, the `PRAGMA table_info`
rows (cid, name, type, notnull, dflt_value, pk).
-/

/-- One `PRAGMA table_info` row. `notnull` and `pk` are the integers sqlite
reports; the source tests them with Python truthiness. -/
structure Column where
  cid : Nat
  name : String
  type : String
  notnull : Nat
  dflt_value : Option String
  pk : Nat
deriving DecidableEq

/-- The catalog state of the database file: the `sqlite_master` table
enumeration and the `table_info` answer for each table name. -/
structure Database where
  tables : List String
  tableInfo : String → List Column

/-- The text appended for one column inside the `for column in columns` loop. -/
def describeColumn (c : Column) : String :=
  "  Column: " ++ c.name ++ ", Type: " ++ c.type
    ++ (if c.notnull ≠ 0 then ", NOT NULL" else "")
    ++ (if c.pk ≠ 0 then ", PRIMARY KEY" else "")
    ++ "\n"

/-- The text appended for one table of the catalog. -/
def describeTable (db : Database) (t : String) : String :=
  "\nTable: " ++ t ++ "\n" ++ String.join ((db.tableInfo t).map describeColumn)

/-- `get_database_schema`: renders the whole catalog, tables in enumeration
order, columns in `table_info` order. -/
def get_database_schema (db : Database) : String :=
  String.join (db.tables.map (describeTable db))

/-! ### Query Synthesizer (`generate_sql_langchain`)

The Ollama/langchain backend is an oracle from the filled prompt to either a
completion string or a raised exception (backend unreachable).
-/

/-- Python exceptions that can cross the boundaries modelled here. -/
inductive PyExc where
  | unboundLocal (name : String)
  | nameError (name : String)
  | keyError (keyRepr : String)
  | indexError
  | typeError
  | attributeError
  | connectionError (msg : String)
deriving DecidableEq

/-- The synthesis prompt: the source's template with the `schema` and `query`
slots substituted by `PromptTemplate` (including the template's own
indentation and blank line). -/
def synthesisPrompt (schema_info query : String) : String :=
  "You are a helpful AI assistant that translates natural language queries into SQL code for a SQLite database.\n    Here is the schema of the database:\n    "
    ++ schema_info
    ++ "\n    Only return the SQL code. Do not provide any explanations or surrounding text.\n    Make sure to use table and column names exactly as they appear in the schema.\n\n    User query: "
    ++ query
    ++ "\n    SQL code:\n    "

/-- `generate_sql_langchain`: one synchronous model invocation; the raw
completion is stripped and returned as-is.  An exception from the backend
propagates (there is no try block around the invocation). -/
def generate_sql_langchain (llm : String → Except PyExc String) (db : Database)
    (prompt : String) : Except PyExc String :=
  match llm (synthesisPrompt (get_database_schema db) prompt) with
  | .error e => .error e
  | .ok sql_code => .ok (pyStrip sql_code)

/-! ### Query Executor (`fetch_data`)

The engine is an oracle from the SQL text to rows or a `sqlite3.Error`.  The
trace records the connection lifecycle and what was printed, mirroring the
source: `conn.close()` stands on the success line inside the `try` block, so
an execute error jumps to the `except` handler without closing; the handler
prints the engine message and returns `None`.
-/

/-- A `sqlite3.Error` with the engine's message. -/
structure SqliteError where
  msg : String
deriving DecidableEq

/-- The database collaborator for one `fetch_data` call: the outcome of
`sqlite3.connect` and of `execute`+`fetchall` on a given statement. -/
structure DbConn where
  connectErr : Option SqliteError
  engine : String → Except SqliteError (List Row)

/-- Observable outcome of one `fetch_data` call: the Python return value
(`some rows` or `none` for `None`), whether a connection was opened, whether
it was closed before returning, and what was printed. -/
structure FetchTrace where
  result : Option (List Row)
  openedConn : Bool
  closedConn : Bool
  printed : Option String
deriving DecidableEq

/-- `fetch_data`: connect, execute, fetchall, close, return — with
`except sqlite3.Error` printing the message and returning `None`.  The close
call is reached only on the success path. -/
def fetch_data (db : DbConn) (sql_query : String) : FetchTrace :=
  match db.connectErr with
  | some e => ⟨none, false, false, some ("SQLite error: " ++ e.msg)⟩
  | none =>
    match db.engine sql_query with
    | .ok rows => ⟨some rows, true, true, none⟩
    | .error e => ⟨none, true, false, some ("SQLite error: " ++ e.msg)⟩

/-! ### Answer Rephraser (`rephrase_answer_deepseek_api`)

The DeepSeek HTTP call is an oracle from the constructed prompt to one of:
a transport-level failure (`requests.exceptions.RequestException`, which also
covers `raise_for_status` on a non-2xx status), a body that is not JSON
(`json.JSONDecodeError`), or a parsed JSON body.
-/

/-- A parsed JSON value (numeric payloads are irrelevant to the extraction). -/
inductive JVal where
  | jstr (s : String)
  | jnum (n : Int)
  | jarr (elems : List JVal)
  | jobj (fields : List (String × JVal))
  | jnull

/-- Outcome of the `requests.post` + `raise_for_status` + `response.json()`
sequence. -/
inductive HttpOutcome where
  | transportError (msg : String)
  | invalidJson
  | jsonBody (body : JVal)

/-- Decimal rendering of a natural number. -/
def natRepr (n : Nat) : String := ⟨natDigits n []⟩

/-- Python subscript with a string key. -/
def JVal.subKey : JVal → String → Except PyExc JVal
  | .jobj fs, k =>
    match fs.lookup k with
    | some v => .ok v
    | none => .error (.keyError ("\x27" ++ k ++ "\x27"))
  | _, _ => .error .typeError

/-- Python subscript with an integer index. -/
def JVal.subIdx : JVal → Nat → Except PyExc JVal
  | .jarr l, i =>
    match l.get? i with
    | some v => .ok v
    | none => .error .indexError
  | .jobj _, i => .error (.keyError (natRepr i))
  | .jstr s, i =>
    match s.data.get? i with
    | some c => .ok (.jstr ⟨[c]⟩)
    | none => .error .indexError
  | _, _ => .error .typeError

/-- Python `.strip()` on a JSON value: only strings have the attribute. -/
def JVal.stripCall : JVal → Except PyExc String
  | .jstr s => .ok (pyStrip s)
  | _ => .error .attributeError

/-- The source's extraction `response_json["choices"][0]["message"]["content"].strip()`. -/
def extractContent (j : JVal) : Except PyExc String := do
  let c ← j.subKey "choices"
  let c0 ← c.subIdx 0
  let m ← c0.subKey "message"
  let content ← m.subKey "content"
  content.stripCall

/-- Python truthiness of `not data` for the value `fetch_data` hands over:
true for `None` and for the empty list. -/
def pyNotData : Option (List Row) → Bool
  | none => true
  | some [] => true
  | some (_ :: _) => false

/-- `data_str = "\n".join(str(row) for row in data)`. -/
def dataStr (rows : List Row) : String := ⟨joinNl (rows.map pyReprRow)⟩

/-- The DeepSeek prompt f-string with `prompt` and `data_str` substituted. -/
def deepseekPrompt (prompt data_str : String) : String :=
  "\n    You are a helpful AI assistant.\n    The user asked the following question: "
    ++ prompt
    ++ "\n    The following data was retrieved from a database:\n    "
    ++ data_str
    ++ "\n    Please rephrase the data into a concise and user-friendly answer.\n    "

/-- Observable outcome of one `rephrase_answer_deepseek_api` call: the Python
return value (`.ok (some s)` a string, `.ok none` for `return None`) or an
uncaught exception; whether the HTTP backend was contacted; what was printed. -/
structure RephraseResult where
  result : Except PyExc (Option String)
  contactedBackend : Bool
  printed : List String

/-- `rephrase_answer_deepseek_api`: short-circuit on falsy `data`; otherwise
serialize the rows, post the prompt, and extract the content, with three
`except` handlers each printing a diagnostic and returning `None`.  Exceptions
other than `RequestException`, `JSONDecodeError` and `KeyError` propagate. -/
def rephrase_answer_deepseek_api (post : String → HttpOutcome) (prompt : String)
    (data : Option (List Row)) : RephraseResult :=
  if pyNotData data then
    ⟨.ok (some "No data found."), false, []⟩
  else
    let rows := data.getD []
    let data_str := dataStr rows
    match post (deepseekPrompt prompt data_str) with
    | .transportError m =>
      ⟨.ok none, true, ["Error communicating with DeepSeek API: " ++ m]⟩
    | .invalidJson =>
      ⟨.ok none, true, ["Error decoding DeepSeek API response: Invalid JSON"]⟩
    | .jsonBody j =>
      match extractContent j with
      | .ok s => ⟨.ok (some s), true, []⟩
      | .error (.keyError k) =>
        ⟨.ok none, true,
          ["Error extracting content from DeepSeek response.  Key not found: " ++ k]⟩
      | .error e => ⟨.error e, true, []⟩

/-! ### Pipeline Orchestrator (the `__main__` turn body)

One iteration of the `while True` loop after a non-exit question was read:
synthesize, then — only when the SQL string is truthy — execute, rephrase and
print.
-/

/-- What one turn shows the user. -/
inductive TurnOutcome where
  | printed (s : String)
  | printedNone
  | silent
  | crashed (e : PyExc)
deriving DecidableEq

/-- Outcome of a turn plus which stages were entered. -/
structure TurnResult where
  outcome : TurnOutcome
  executorInvoked : Bool
  rephraserInvoked : Bool

/-- One turn of the `__main__` loop: `sql_query = generate_sql_langchain(...)`;
`if sql_query:` guards execution and rephrasing; `print(rephrased_answer)`
prints the rephraser's return value (the Python `None` prints as text, modelled
as `printedNone`).  A falsy SQL string skips everything and prints nothing. -/
def runTurn (llm : String → Except PyExc String) (schemaDb : Database) (db : DbConn)
    (post : String → HttpOutcome) (user_prompt : String) : TurnResult :=
  match generate_sql_langchain llm schemaDb user_prompt with
  | .error e => ⟨.crashed e, false, false⟩
  | .ok sql_query =>
    if sql_query = "" then ⟨.silent, false, false⟩
    else
      let tr := fetch_data db sql_query
      let rr := rephrase_answer_deepseek_api post user_prompt tr.result
      match rr.result with
      | .ok (some s) => ⟨.printed s, true, true⟩
      | .ok none => ⟨.printedNone, true, true⟩
      | .error e => ⟨.crashed e, true, true⟩

/-! ### Scheduled alerting subsystem

`check_failure_rates`, `detect_anomalies` and `send_daily_financial_reports`
iterate with `for location, data in data.items()`.  CPython determines the
local-variable set of a function at compile time: every name assigned anywhere
in the body — including `for` targets — is local for the whole body, and
reading a local before its first assignment raises `UnboundLocalError` (the
module-level binding of the same name, if any, is never consulted).  The
embedding makes that rule explicit: each function carries the list of names
its body assigns (read off the source) and name lookup goes through
`pyLookupName` with the locals map as it stands at that point of execution.

The loop bodies are modelled too, although every run errors before reaching
them: their numeric formatting (`.2%`, `.2f`, `json.dumps(..., indent=4)`) is
rendered at two-decimal precision without reproducing CPython's tie-breaking
or indentation, which no theorem depends on.
-/

/-- A Python value in the metrics mapping the alerting functions expect. -/
inductive PyVal where
  | str (s : String)
  | num (q : ℚ)
  | dict (fields : List (String × PyVal))

/-- CPython name resolution at a read: a name in the function's local set must
already be bound in the locals map, otherwise `UnboundLocalError`; any other
name is looked up in the globals, otherwise `NameError`. -/
def pyLookupName (localNames : List String) (locals globals : String → Option PyVal)
    (n : String) : Except PyExc PyVal :=
  if n ∈ localNames then
    match locals n with
    | some v => .ok v
    | none => .error (.unboundLocal n)
  else
    match globals n with
    | some v => .ok v
    | none => .error (.nameError n)

/-- An email message handed to `send_email` (recipient, subject, body). -/
structure Email where
  recipient : String
  subject : String
  body : String
deriving DecidableEq

/-- `FAILURE_THRESHOLD = 0.05`. -/
def FAILURE_THRESHOLD : ℚ := 5 / 100

/-- `ANOMALY_THRESHOLD = 2.0`. -/
def ANOMALY_THRESHOLD : ℚ := 2

/-- Python `str.capitalize()`: first character upper-cased, rest lower-cased. -/
def pyCapitalize (s : String) : String :=
  match s.data with
  | [] => ""
  | c :: rest => ⟨c.toUpper :: rest.map Char.toLower⟩

/-- Zero-padded two-digit rendering. -/
def pad2 (n : Nat) : String :=
  if n < 10 then "0" ++ natRepr n else natRepr n

/-- Two-decimal fixed-point rendering of a rational (model of `.2f`). -/
def formatF2 (q : ℚ) : String :=
  let c : Int := Int.floor (q * 100 + 1 / 2)
  let a := c.natAbs
  (if c < 0 then "-" else "") ++ natRepr (a / 100) ++ "." ++ pad2 (a % 100)

/-- Model of the `.2%` format: the value times 100 rendered `.2f`, then `%`. -/
def formatPct2 (q : ℚ) : String := formatF2 (q * 100) ++ "%"

/-- Names `check_failure_rates` assigns in its body, hence its locals. -/
def checkFailureLocals : List String := ["location", "data", "subject", "body"]

/-- The `for location, data in data.items()` body of `check_failure_rates`:
guard `"failure_rate" in data and data["failure_rate"] > FAILURE_THRESHOLD`,
then `send_email(data["manager_email"], subject, body)`. -/
def checkFailureLoop : List (String × PyVal) → List Email → Except PyExc Unit × List Email
  | [], emails => (.ok (), emails)
  | (location, d) :: rest, emails =>
    match d with
    | .dict fields =>
      match fields.lookup "failure_rate" with
      | some (.num r) =>
        if r > FAILURE_THRESHOLD then
          match fields.lookup "manager_email" with
          | some (.str addr) =>
            checkFailureLoop rest (emails ++
              [⟨addr, "FAILURE RATE ALERT: " ++ pyCapitalize location,
                "The failure rate at " ++ pyCapitalize location ++ " is "
                  ++ formatPct2 r ++ ", which exceeds the threshold of "
                  ++ formatPct2 FAILURE_THRESHOLD ++ "."⟩])
          | some _ => (.error .typeError, emails)
          | none => (.error (.keyError "\x27manager_email\x27"), emails)
        else checkFailureLoop rest emails
      | some _ => (.error .typeError, emails)
      | none => checkFailureLoop rest emails
    | _ => (.error .typeError, emails)

/-- `check_failure_rates`: the first evaluated expression is the receiver
`data` of `data.items()`, read through CPython name resolution with the
function's own local set and an entirely unbound locals map. -/
def check_failure_rates (globals : String → Option PyVal) :
    Except PyExc Unit × List Email :=
  match pyLookupName checkFailureLocals (fun _ => none) globals "data" with
  | .error e => (.error e, [])
  | .ok (.dict items) => checkFailureLoop items []
  | .ok _ => (.error .attributeError, [])

/-- Names `detect_anomalies` assigns in its body, hence its locals. -/
def detectAnomaliesLocals : List String :=
  ["average_sales", "location", "data", "subject", "body"]

/-- The generator `sum(data[loc]["daily_financial_report"]["sales"] for loc in data)`
(note: unlike the loop below it does not guard the key accesses). -/
def sumSales : List (String × PyVal) → Except PyExc ℚ
  | [] => .ok 0
  | (_, v) :: rest =>
    match v with
    | .dict f =>
      match f.lookup "daily_financial_report" with
      | some (.dict rep) =>
        match rep.lookup "sales" with
        | some (.num s) => (sumSales rest).map (s + ·)
        | some _ => .error .typeError
        | none => .error (.keyError "\x27sales\x27")
      | some _ => .error .typeError
      | none => .error (.keyError "\x27daily_financial_report\x27")
    | _ => .error .typeError

/-- The `for location, data in data.items()` body of `detect_anomalies`. -/
def detectLoop (avg : ℚ) : List (String × PyVal) → List Email → Except PyExc Unit × List Email
  | [], emails => (.ok (), emails)
  | (location, d) :: rest, emails =>
    match d with
    | .dict fields =>
      match fields.lookup "daily_financial_report" with
      | some (.dict rep) =>
        match rep.lookup "sales" with
        | some (.num s) =>
          if s > avg * ANOMALY_THRESHOLD then
            match fields.lookup "manager_email" with
            | some (.str addr) =>
              detectLoop avg rest (emails ++
                [⟨addr, "ANOMALY DETECTED: Unusual Sales at " ++ pyCapitalize location,
                  "Anomalously high sales detected at " ++ pyCapitalize location
                    ++ ": " ++ formatF2 s ++ " (Average: " ++ formatF2 avg ++ ")."⟩])
            | some _ => (.error .typeError, emails)
            | none => (.error (.keyError "\x27manager_email\x27"), emails)
          else detectLoop avg rest emails
        | some _ => (.error .typeError, emails)
        | none => (.error (.keyError "\x27sales\x27"), emails)
      | some _ => (.error .typeError, emails)
      | none => detectLoop avg rest emails
    | _ => (.error .typeError, emails)

/-- `detect_anomalies`: the first statement is the conditional expression
`... if data else 0`, whose guard reads `data` first — again a local read. -/
def detect_anomalies (globals : String → Option PyVal) :
    Except PyExc Unit × List Email :=
  match pyLookupName detectAnomaliesLocals (fun _ => none) globals "data" with
  | .error e => (.error e, [])
  | .ok (.dict items) =>
    match items with
    | [] => (.ok (), [])
    | _ :: _ =>
      match sumSales items with
      | .error e => (.error e, [])
      | .ok total => detectLoop (total / (items.length : ℚ)) items []
  | .ok _ => (.error .typeError, [])

/-- A calendar date, standing in for `datetime.now()`. -/
structure Date where
  year : Nat
  month : Nat
  day : Nat

/-- Zero-padded four-digit rendering. -/
def pad4 (n : Nat) : String :=
  if n < 10 then "000" ++ natRepr n
  else if n < 100 then "00" ++ natRepr n
  else if n < 1000 then "0" ++ natRepr n
  else natRepr n

/-- `now.strftime("%Y-%m-%d")`. -/
def strftimeYmd (d : Date) : String :=
  pad4 d.year ++ "-" ++ pad2 d.month ++ "-" ++ pad2 d.day

mutual

/-- Model of `json.dumps` on a metrics value (flat rendering; the source asks
for `indent=4`, which only affects whitespace on a path no run reaches). -/
def jsonDumps : PyVal → String
  | .str s => "\x22" ++ s ++ "\x22"
  | .num q => formatF2 q
  | .dict fs => "\x7b" ++ jsonDumpsFields fs ++ "\x7d"

/-- Field list rendering for `jsonDumps`. -/
def jsonDumpsFields : List (String × PyVal) → String
  | [] => ""
  | [(k, v)] => "\x22" ++ k ++ "\x22: " ++ jsonDumps v
  | (k, v) :: rest => "\x22" ++ k ++ "\x22: " ++ jsonDumps v ++ ", " ++ jsonDumpsFields rest

end

/-- Names `send_daily_financial_reports` assigns in its body, hence its locals. -/
def sendDailyLocals : List String :=
  ["now", "subject_prefix", "location", "data", "report", "subject", "body"]

/-- The `for location, data in data.items()` body of
`send_daily_financial_reports`. -/
def sendDailyLoop (subjectPfx : String) :
    List (String × PyVal) → List Email → Except PyExc Unit × List Email
  | [], emails => (.ok (), emails)
  | (location, d) :: rest, emails =>
    match d with
    | .dict fields =>
      match fields.lookup "daily_financial_report", fields.lookup "manager_email" with
      | some rep, some (.str addr) =>
        sendDailyLoop subjectPfx rest (emails ++
          [⟨addr, subjectPfx ++ ": " ++ pyCapitalize location,
            "Please find the daily financial report for " ++ pyCapitalize location
              ++ " attached:\n\n" ++ jsonDumps rep⟩])
      | some _, some _ => (.error .typeError, emails)
      | _, _ => sendDailyLoop subjectPfx rest emails
    | _ => (.error .typeError, emails)

/-- `send_daily_financial_reports`: binds `now` and `subject_prefix` first,
then hits the same unbound local read of `data` at the loop header. -/
def send_daily_financial_reports (globals : String → Option PyVal) (now : Date) :
    Except PyExc Unit × List Email :=
  let subjectPfx := "Daily Financial Report (" ++ strftimeYmd now ++ ")"
  match pyLookupName sendDailyLocals (fun _ => none) globals "data" with
  | .error e => (.error e, [])
  | .ok (.dict items) => sendDailyLoop subjectPfx items []
  | .ok _ => (.error .attributeError, [])

/-! ### Concrete fixtures for witnesses and counterexamples -/

/-- The spec's scenario catalog: `orders(id INTEGER PRIMARY KEY, amount REAL, location TEXT)`. -/
def ordersDb : Database :=
  ⟨["orders"], fun t =>
    if t = "orders" then
      [⟨0, "id", "INTEGER", 0, none, 1⟩, ⟨1, "amount", "REAL", 0, none, 0⟩,
        ⟨2, "location", "TEXT", 0, none, 0⟩]
    else []⟩

/-- Same catalog answers on every enumerated table, different junk answer for a
table the catalog does not list. -/
def ordersDbGhost : Database :=
  ⟨["orders"], fun t =>
    if t = "orders" then
      [⟨0, "id", "INTEGER", 0, none, 1⟩, ⟨1, "amount", "REAL", 0, none, 0⟩,
        ⟨2, "location", "TEXT", 0, none, 0⟩]
    else [⟨9, "ghost", "BLOB", 0, none, 0⟩]⟩

/-- Engine raising `no such table: orders` on any statement. -/
def connNoTable : DbConn := ⟨none, fun _ => .error ⟨"no such table: orders"⟩⟩

/-- Engine raising a different sqlite error on any statement. -/
def connBadStmt : DbConn := ⟨none, fun _ => .error ⟨"incomplete input"⟩⟩

/-- Engine returning fixed rows on any statement. -/
def rowsConn (rows : List Row) : DbConn := ⟨none, fun _ => .ok rows⟩

/-- The scenario value `150.0`. -/
def amount150 : Value := .real ⟨false, [1, 5, 0], [0], none⟩

/-- The scenario result set `[(150.0,)]`. -/
def oneRow : List Row := [[amount150]]

/-- A two-row result set with a multi-column second row. -/
def twoRows : List Row := [[amount150], [Value.int 2, Value.text "east"]]

/-- Synthesis backend stub returning the scenario statement. -/
def llmOrders : String → Except PyExc String :=
  fun _ => .ok "SELECT SUM(amount) FROM orders WHERE location=\x27east\x27;"

/-! ### Claims -/

/-- Claim C9: the Schema Introspector's rendering is deterministic — two calls
over the same database state (same catalog enumeration, same column metadata
for every enumerated table) produce byte-identical schema descriptions. -/
theorem get_database_schema_deterministic (db1 db2 : Database)
    (ht : db1.tables = db2.tables)
    (hc : ∀ t ∈ db1.tables, db1.tableInfo t = db2.tableInfo t) :
    get_database_schema db1 = get_database_schema db2 := by
  unfold get_database_schema
  rw [← ht]
  congr 1
  apply List.map_congr_left
  intro t htmem
  unfold describeTable
  rw [hc t htmem]

/-- Witness for C9 at concrete catalogs that agree on the enumerated table but
answer differently for a non-enumerated name. -/
theorem get_database_schema_deterministic_witness :
    get_database_schema ordersDb = get_database_schema ordersDbGhost :=
  get_database_schema_deterministic ordersDb ordersDbGhost rfl (by
    intro t ht
    have h : t = "orders" := by simpa [ordersDb] using ht
    subst h
    rfl)

/-- Claim C3: `rephrase` on an empty result set returns exactly the literal
"No data found." without contacting the remote backend, whatever the question
and whatever the backend would answer. -/
theorem rephrase_empty_result_no_backend (post : String → HttpOutcome) (q : String) :
    rephrase_answer_deepseek_api post q (some []) =
      ⟨.ok (some "No data found."), false, []⟩ :=
  rfl

/-- Counterexample to claim C2 as stated: with a whitespace-only model
completion, `generate_sql_langchain` returns the empty string `.ok ""` — an
empty return value, not a failure — so synthesis does not guarantee
"non-empty string or SynthesisFailure". -/
theorem synthesize_empty_response_returns_empty :
    generate_sql_langchain (fun _ => .ok "   ") ordersDb "total amount for location east"
      = .ok "" := by
  unfold generate_sql_langchain
  show Except.ok (pyStrip "   ") = Except.ok ""
  rw [show pyStrip "   " = "" from by decide]

/-- Claim C2 (amended): `synthesize` either propagates the backend's exception
unmodified or returns the trimmed completion — a string with no leading or
trailing whitespace which may be empty; the empty-completion case yields an
empty return value (filtered later by the orchestrator's truthiness check),
not a raised failure. -/
theorem synthesize_trimmed_or_raises (llm : String → Except PyExc String)
    (db : Database) (q : String) :
    (∃ e, generate_sql_langchain llm db q = .error e) ∨
    (∃ s, generate_sql_langchain llm db q = .ok s ∧ pyStrip s = s) := by
  unfold generate_sql_langchain
  cases h : llm (synthesisPrompt (get_database_schema db) q) with
  | error e => exact Or.inl ⟨e, rfl⟩
  | ok raw => exact Or.inr ⟨pyStrip raw, rfl, pyStrip_idem raw⟩

/-- Counterexample to claim C4 as stated: two executions failing with
different engine messages return the identical value `None` — the returned
value carries no tag with the engine's message (the message only goes to
stdout, which differs between the two runs). -/
theorem fetch_data_error_return_carries_no_message :
    (fetch_data connNoTable "SELECT SUM(amount) FROM orders").result =
      (fetch_data connBadStmt "SELECT SUM(amount) FROM orders").result
    ∧ (fetch_data connNoTable "SELECT SUM(amount) FROM orders").result = none
    ∧ (fetch_data connNoTable "SELECT SUM(amount) FROM orders").printed ≠
      (fetch_data connBadStmt "SELECT SUM(amount) FROM orders").printed :=
  ⟨rfl, rfl, by decide⟩

/-- Claim C4 (amended): `execute` returns the materialized rows on success —
a zero-row statement gives the empty result set, distinct from absent — and on
any database-level error returns the bare absent value `None` while printing
(not returning) the engine's message; the sqlite error never propagates past
the function. -/
theorem fetch_data_rows_or_none (db : DbConn) (q : String)
    (hconn : db.connectErr = none) :
    (∀ rows, db.engine q = .ok rows → (fetch_data db q).result = some rows)
    ∧ (∀ e, db.engine q = .error e →
        (fetch_data db q).result = none ∧
        (fetch_data db q).printed = some ("SQLite error: " ++ e.msg)) := by
  constructor
  · intro rows h
    unfold fetch_data
    rw [hconn, h]
  · intro e h
    unfold fetch_data
    rw [hconn, h]
    exact ⟨rfl, rfl⟩

/-- Witness for C4 (amended): the success branch materializes the empty result
set (not absent) and the error branch returns absent. -/
theorem fetch_data_rows_or_none_witness :
    (fetch_data (rowsConn []) "SELECT 1").result = some []
    ∧ (fetch_data connNoTable "SELECT 1").result = none :=
  ⟨(fetch_data_rows_or_none (rowsConn []) "SELECT 1" rfl).1 [] rfl,
    ((fetch_data_rows_or_none connNoTable "SELECT 1" rfl).2 ⟨"no such table: orders"⟩ rfl).1⟩

/-- Counterexample to claim C5 as stated: on an execute error the `except`
branch returns with the connection still open — `openedConn` is true and
`closedConn` is false at return. -/
theorem fetch_data_error_leaves_connection_open :
    fetch_data connNoTable "SELECT SUM(amount) FROM orders" =
      ⟨none, true, false, some "SQLite error: no such table: orders"⟩ :=
  rfl

/-- Claim C5 (amended): the connection opened by `execute` is closed before
return on the success path only; on a database-level execute error the
function returns from the handler without closing, leaving the opened
connection unreleased. -/
theorem fetch_data_close_behavior (db : DbConn) (q : String)
    (hconn : db.connectErr = none) :
    ((∃ rows, db.engine q = .ok rows) →
      (fetch_data db q).openedConn = true ∧ (fetch_data db q).closedConn = true)
    ∧ ((∃ e, db.engine q = .error e) →
      (fetch_data db q).openedConn = true ∧ (fetch_data db q).closedConn = false) := by
  constructor
  · rintro ⟨rows, h⟩
    unfold fetch_data
    rw [hconn, h]
    exact ⟨rfl, rfl⟩
  · rintro ⟨e, h⟩
    unfold fetch_data
    rw [hconn, h]
    exact ⟨rfl, rfl⟩

/-- Witness for C5 (amended) at concrete success and error engines. -/
theorem fetch_data_close_behavior_witness :
    (fetch_data (rowsConn []) "SELECT 1").closedConn = true
    ∧ (fetch_data connNoTable "SELECT 1").closedConn = false :=
  ⟨((fetch_data_close_behavior (rowsConn []) "SELECT 1" rfl).1 ⟨[], rfl⟩).2,
    ((fetch_data_close_behavior connNoTable "SELECT 1" rfl).2
      ⟨⟨"no such table: orders"⟩, rfl⟩).2⟩

/-- Claim C1: once synthesis yields a non-empty statement the turn always
proceeds to rephrasing, a reported database error included — the absent result
is passed into rephrase, which answers "No data found." instead of aborting
the turn. -/
theorem orchestrator_db_error_flows_to_rephrase
    (llm : String → Except PyExc String) (schemaDb : Database) (db : DbConn)
    (post : String → HttpOutcome) (q sql : String)
    (hs : generate_sql_langchain llm schemaDb q = .ok sql)
    (hne : sql ≠ "") (hconn : db.connectErr = none)
    (herr : ∃ e, db.engine sql = .error e) :
    runTurn llm schemaDb db post q = ⟨.printed "No data found.", true, true⟩ := by
  obtain ⟨e, he⟩ := herr
  have hfetch : fetch_data db sql = ⟨none, true, false, some ("SQLite error: " ++ e.msg)⟩ := by
    unfold fetch_data
    rw [hconn, he]
  unfold runTurn
  rw [hs]
  show (if sql = "" then (⟨.silent, false, false⟩ : TurnResult)
    else
      let tr := fetch_data db sql
      let rr := rephrase_answer_deepseek_api post q tr.result
      match rr.result with
      | .ok (some s) => ⟨.printed s, true, true⟩
      | .ok none => ⟨.printedNone, true, true⟩
      | .error e => ⟨.crashed e, true, true⟩) = ⟨.printed "No data found.", true, true⟩
  rw [if_neg hne, hfetch]
  rfl

/-- Witness for C1 at the spec's second scenario: synthesized statement, engine
failing with `no such table: orders`, final output "No data found.". -/
theorem orchestrator_db_error_flows_to_rephrase_witness :
    runTurn llmOrders ordersDb connNoTable (fun _ => .invalidJson) "total amount for east"
      = ⟨.printed "No data found.", true, true⟩ :=
  orchestrator_db_error_flows_to_rephrase llmOrders ordersDb connNoTable
    (fun _ => .invalidJson) "total amount for east"
    "SELECT SUM(amount) FROM orders WHERE location=\x27east\x27;"
    (by
      unfold generate_sql_langchain llmOrders
      show Except.ok (pyStrip "SELECT SUM(amount) FROM orders WHERE location=\x27east\x27;")
        = Except.ok "SELECT SUM(amount) FROM orders WHERE location=\x27east\x27;"
      rw [show pyStrip "SELECT SUM(amount) FROM orders WHERE location=\x27east\x27;"
        = "SELECT SUM(amount) FROM orders WHERE location=\x27east\x27;" from by decide])
    (by decide) rfl ⟨⟨"no such table: orders"⟩, rfl⟩

/-- Counterexample to the diagnostic half of claim C6: with a backend answering
an empty completion the turn ends silent — no SynthesisFailure diagnostic (nor
anything else) is printed in place of an answer. -/
theorem empty_sql_turn_prints_nothing :
    runTurn (fun _ => .ok "") ordersDb connNoTable (fun _ => .invalidJson) "list all orders"
      = ⟨.silent, false, false⟩ :=
  rfl

/-- Claim C6 (amended): when synthesis yields an empty statement the
Orchestrator never invokes the Executor (nor the Rephraser) — but it surfaces
no diagnostic: the turn prints nothing and silently returns to the prompt. -/
theorem empty_sql_skips_executor_silently
    (llm : String → Except PyExc String) (schemaDb : Database) (db : DbConn)
    (post : String → HttpOutcome) (q : String)
    (hs : generate_sql_langchain llm schemaDb q = .ok "") :
    runTurn llm schemaDb db post q = ⟨.silent, false, false⟩ := by
  unfold runTurn
  rw [hs]
  rfl

/-- Witness for C6 (amended): a whitespace-only completion strips to the empty
statement; the turn is silent and no stage after synthesis runs. -/
theorem empty_sql_skips_executor_silently_witness :
    runTurn (fun _ => .ok " ") ordersDb connNoTable (fun _ => .invalidJson) "hello"
      = ⟨.silent, false, false⟩ :=
  empty_sql_skips_executor_silently (fun _ => .ok " ") ordersDb connNoTable
    (fun _ => .invalidJson) "hello"
    (by
      unfold generate_sql_langchain
      show Except.ok (pyStrip " ") = Except.ok ""
      rw [show pyStrip " " = "" from by decide])

theorem transport_msg_ne_json_msg (m : String) :
    ("Error communicating with DeepSeek API: " ++ m) ≠
      "Error decoding DeepSeek API response: Invalid JSON" := by
  intro hEq
  have h := congrArg (fun s => (s.data)[6]?) hEq
  simp only [String.data_append] at h
  rw [List.getElem?_append_left (by decide)] at h
  exact absurd h (by decide)

theorem transport_msg_ne_key_msg (m : String) :
    ("Error communicating with DeepSeek API: " ++ m) ≠
      "Error extracting content from DeepSeek response.  Key not found: \x27choices\x27" := by
  intro hEq
  have h := congrArg (fun s => (s.data)[6]?) hEq
  simp only [String.data_append] at h
  rw [List.getElem?_append_left (by decide)] at h
  exact absurd h (by decide)

/-- Counterexample to claim C7 as stated: the three failure causes — transport
error, non-JSON body, missing content field — all return the identical value
`None`; nothing in the value returned to the caller distinguishes them. -/
theorem rephrase_failure_values_indistinguishable :
    (rephrase_answer_deepseek_api (fun _ => .transportError "connection timed out")
      "q" (some oneRow)).result = .ok none
    ∧ (rephrase_answer_deepseek_api (fun _ => .invalidJson) "q" (some oneRow)).result
      = .ok none
    ∧ (rephrase_answer_deepseek_api (fun _ => .jsonBody (.jobj [])) "q" (some oneRow)).result
      = .ok none :=
  ⟨rfl, rfl, rfl⟩

/-- Claim C7 (amended): each of the three caught failure causes makes rephrase
return the same value `None` to the caller; the causes are distinguished only
in the printed diagnostics, which differ pairwise. -/
theorem rephrase_failures_return_none_distinct_prints
    (q m : String) (rows : List Row) (h : rows ≠ []) :
    rephrase_answer_deepseek_api (fun _ => .transportError m) q (some rows) =
      ⟨.ok none, true, ["Error communicating with DeepSeek API: " ++ m]⟩
    ∧ rephrase_answer_deepseek_api (fun _ => .invalidJson) q (some rows) =
      ⟨.ok none, true, ["Error decoding DeepSeek API response: Invalid JSON"]⟩
    ∧ rephrase_answer_deepseek_api (fun _ => .jsonBody (.jobj [])) q (some rows) =
      ⟨.ok none, true,
        ["Error extracting content from DeepSeek response.  Key not found: \x27choices\x27"]⟩
    ∧ ("Error communicating with DeepSeek API: " ++ m) ≠
        "Error decoding DeepSeek API response: Invalid JSON"
    ∧ ("Error communicating with DeepSeek API: " ++ m) ≠
        "Error extracting content from DeepSeek response.  Key not found: \x27choices\x27"
    ∧ ("Error decoding DeepSeek API response: Invalid JSON" : String) ≠
        "Error extracting content from DeepSeek response.  Key not found: \x27choices\x27" := by
  cases rows with
  | nil => exact absurd rfl h
  | cons r rs =>
    exact ⟨rfl, rfl, rfl, transport_msg_ne_json_msg m, transport_msg_ne_key_msg m, by decide⟩

/-- Witness for C7 (amended) at a concrete non-empty result set. -/
theorem rephrase_failures_return_none_distinct_prints_witness :
    rephrase_answer_deepseek_api (fun _ => .invalidJson) "total" (some oneRow) =
      ⟨.ok none, true, ["Error decoding DeepSeek API response: Invalid JSON"]⟩ :=
  (rephrase_failures_return_none_distinct_prints "total" "connection timed out" oneRow
    (by decide)).2.1

/-- Claim C8: for a non-empty result set the serialized block has exactly one
line per row — splitting `data_str` at newlines recovers, in row order, the
Python tuple rendering of each row, whose elements appear in intra-row order
joined by their rendered forms. -/
theorem data_str_one_line_per_row (rows : List Row) (h : rows ≠ []) :
    splitNl (dataStr rows).data = rows.map (fun r => pyTupleReprL (r.map pyReprVal)) := by
  show splitNl (joinNl (rows.map pyReprRow))
    = rows.map (fun r => pyTupleReprL (r.map pyReprVal))
  rw [splitNl_joinNl (rows.map pyReprRow)
    (fun hmap => h (List.map_eq_nil_iff.mp hmap))
    (fun p hp => by
      rcases List.mem_map.mp hp with ⟨r, _, rfl⟩
      exact pyReprRow_ne_nl r)]
  rfl

/-- Witness for C8 at a concrete two-row result set with a multi-column row. -/
theorem data_str_one_line_per_row_witness :
    splitNl (dataStr twoRows).data = twoRows.map (fun r => pyTupleReprL (r.map pyReprVal)) :=
  data_str_one_line_per_row twoRows (by decide)

/-- Claim C10: every invocation of `check_failure_rates`, `detect_anomalies`
and `send_daily_financial_reports` raises `UnboundLocalError` on the read of
`data` — the `for` target of the same name makes it local and unbound — before
sending any email, whatever the module globals hold; hence no alert or report
email is ever sent. -/
theorem alerting_functions_unbound_local (globals : String → Option PyVal) (now : Date) :
    check_failure_rates globals = (.error (.unboundLocal "data"), [])
    ∧ detect_anomalies globals = (.error (.unboundLocal "data"), [])
    ∧ send_daily_financial_reports globals now = (.error (.unboundLocal "data"), []) :=
  ⟨rfl, rfl, rfl⟩

end App
